import Mathlib

/-!
Shallow embedding of the Monte Carlo estimation core of `src/script.js`
(hybrid Waymo estimator).  JavaScript numbers are modelled as follows:
a value that the program may set to a non-finite float (`NaN` or an
infinity) is represented as `Option K` (`none` = non-finite), written
`JsNum K`; values that are plain finite reals are represented directly
in a linear ordered field `K` (instantiated at `ℚ` for decidable
evaluation and at `ℝ` for the full pipeline, which uses `exp`/`log`).
Float rounding and overflow are outside the model, as usual for a
real-number embedding.
-/

/-- JavaScript number that may be non-finite: `none` models `NaN` or `±Infinity`. -/
abbrev JsNum (K : Type) := Option K

/-- Addition on possibly non-finite numbers: any non-finite operand yields a
non-finite result (as for IEEE `+` on `NaN`/`Infinity` operands). -/
def jAdd {K : Type} [LinearOrderedField K] : JsNum K → JsNum K → JsNum K
  | some a, some b => some (a + b)
  | _, _ => none

/-- Multiplication on possibly non-finite numbers: any non-finite operand yields
a non-finite result (`NaN·x = NaN`, `(±∞)·x` is `±∞` or `NaN`). -/
def jMul {K : Type} [LinearOrderedField K] : JsNum K → JsNum K → JsNum K
  | some a, some b => some (a * b)
  | _, _ => none

/-- Division on possibly non-finite numbers: division by zero gives a non-finite
result (`±Infinity` or `NaN` in JS), and non-finite operands propagate. -/
def jDiv {K : Type} [LinearOrderedField K] : JsNum K → JsNum K → JsNum K
  | some a, some b => if b = 0 then none else some (a / b)
  | _, _ => none

/-- Validated simulation parameters, mirroring the record returned by
`readInputs` (share and utilization bounds already divided by 100). -/
structure Params (K : Type) where
  fleetSize : K
  sfMin : K
  sfMax : K
  utilMin : K
  utilMax : K
  tripsPerDay : K
  tpcMin : K
  tpcMax : K
  samples : K
  sensorWeight : K

/-- Raw form values as read by `readInputs` before validation
(shares and utilizations still in percent). -/
structure RawInputs (K : Type) where
  fleetSize : K
  sfShareMin : K
  sfShareMax : K
  utilMin : K
  utilMax : K
  tripsPerDay : K
  tripsPerCarMin : K
  tripsPerCarMax : K
  samples : K
  sensorWeight : K

/-- Embedding of `readInputs` (src/script.js:231-267): the chain of validation
checks, each throwing with the source's message, then the construction of the
validated parameter record. -/
def readInputs {K : Type} [LinearOrderedField K] (r : RawInputs K) :
    Except String (Params K) :=
  if r.fleetSize ≤ 0 then .error "Fleet size must be > 0."
  else if r.sfShareMin < 0 ∨ r.sfShareMax > 100 ∨ r.sfShareMin > r.sfShareMax then
    .error "SF share % invalid."
  else if r.utilMin < 0 ∨ r.utilMax > 100 ∨ r.utilMin > r.utilMax then
    .error "Utilization % invalid."
  else if r.tripsPerCarMin ≤ 0 ∨ r.tripsPerCarMax < r.tripsPerCarMin then
    .error "Trips/car invalid."
  else if r.samples < 1000 then .error "Samples must be >= 1000."
  else if r.sensorWeight < 0 ∨ r.sensorWeight > 1 then
    .error "Sensor weight must be 0-1."
  else .ok
    { fleetSize := r.fleetSize
      sfMin := r.sfShareMin / 100
      sfMax := r.sfShareMax / 100
      utilMin := r.utilMin / 100
      utilMax := r.utilMax / 100
      tripsPerDay := r.tripsPerDay
      tpcMin := r.tripsPerCarMin
      tpcMax := r.tripsPerCarMax
      samples := r.samples
      sensorWeight := r.sensorWeight }

/-- Embedding of `rand(min, max)` (src/script.js:413-415); `u` stands for the
`Math.random()` draw, a float in `[0, 1)`. -/
def rand {K : Type} [LinearOrderedField K] (mn mx u : K) : K :=
  mn + u * (mx - mn)

/-- Embedding of `sampleFleet` (src/script.js:304-308); `uShare` and `uUtil`
are the two `Math.random()` draws consumed by the two `rand` calls.
All inputs are finite, so the result is a plain field element. -/
def sampleFleet {K : Type} [LinearOrderedField K] (p : Params K) (uShare uUtil : K) : K :=
  p.fleetSize * rand p.sfMin p.sfMax uShare * rand p.utilMin p.utilMax uUtil

/-- Embedding of `sampleTrip` (src/script.js:310-314); `uTpc` is the
`Math.random()` draw of the `rand` call.  The division is JS division, so a
zero trips-per-car draw would give a non-finite result. -/
def sampleTrip {K : Type} [LinearOrderedField K] (p : Params K) (uTpc : K) : JsNum K :=
  if p.tripsPerDay ≤ 0 then some 0
  else jDiv (some p.tripsPerDay) (some (rand p.tpcMin p.tpcMax uTpc))

/-- Embedding of `blendSamples` (src/script.js:330-337).  The sensor sample `s`
may be non-finite (`none`); `if (!ok || sensorWeight === 0)` becomes the
disjunction below, and the arithmetic of each branch is JS arithmetic on the
possibly non-finite `f`, `t`, `s`. -/
def blendSamples {K : Type} [LinearOrderedField K] (f t s : JsNum K) (sensorWeight : K) :
    JsNum K :=
  if s = none ∨ sensorWeight = 0 then
    jAdd (jMul (some (1 / 2)) f) (jMul (some (1 / 2)) t)
  else
    let rest := (1 - sensorWeight) / 2
    jAdd (jAdd (jMul (some rest) f) (jMul (some rest) t)) (jMul (some sensorWeight) s)

/-- Embedding of `percentile` (src/script.js:405-411): linear interpolation
between order statistics.  Out-of-range indexing (never reached for
`p ∈ [0,1]` on a non-empty array) defaults to 0. -/
def percentile {K : Type} [LinearOrderedField K] [FloorRing K] (a : List K) (p : K) : K :=
  let i := p * ((a.length : K) - 1)
  let lo := ⌊i⌋
  let hi := ⌈i⌉
  if lo = hi then a.getD lo.toNat 0
  else a.getD lo.toNat 0 * ((hi : K) - i) + a.getD hi.toNat 0 * (i - (lo : K))

/-- Summary statistics record `{mean, p5, p95}`; a field is `none` when the
source sets it to `NaN` (the no-finite-data case). -/
structure SummaryStats (K : Type) where
  mean : Option K
  p5 : Option K
  p95 : Option K
deriving DecidableEq

/-- State-passing embedding of `summarize` (src/script.js:339-350).  The first
component is the returned record; the second is the contents of the argument
array after the call.  `arr.filter(Number.isFinite)` allocates a fresh array
`a` and `[...a]` copies it again, so the in-place `.sort` runs on that copy
and the argument array is returned unchanged. -/
def summarizeFrame {K : Type} [LinearOrderedField K] [FloorRing K]
    (arr : List (JsNum K)) : SummaryStats K × List (JsNum K) :=
  let a := arr.filterMap id
  if a.isEmpty then (⟨none, none, none⟩, arr)
  else
    let sorted := List.insertionSort (· ≤ ·) a
    let mean := sorted.foldl (· + ·) 0 / (sorted.length : K)
    (⟨some mean, some (percentile sorted (5 / 100)), some (percentile sorted (95 / 100))⟩,
      arr)

/-- Value of `summarize` (src/script.js:339-350): the record it returns. -/
def summarize {K : Type} [LinearOrderedField K] [FloorRing K]
    (arr : List (JsNum K)) : SummaryStats K :=
  (summarizeFrame arr).1

/-- Embedding of `randn` (src/script.js:417-422), the Box-Muller cosine branch;
`u1`, `u2` stand for the `Math.random()` draws after the re-draw loops, so
they lie in `(0, 1)`. -/
noncomputable def randn (u1 u2 : ℝ) : ℝ :=
  Real.sqrt (-2 * Real.log u1) * Real.cos (2 * Real.pi * u2)

/-- Embedding of `sampleSensor` (src/script.js:316-328).  The point estimate is
`none` when `lastSensorCitywideEstimate` is `null` or non-finite; a
non-positive or missing point yields the `NaN` sentinel (`none`).  `z` is the
`randn()` draw. -/
noncomputable def sampleSensor (point : Option ℝ) (z : ℝ) : Option ℝ :=
  match point with
  | none => none
  | some pt =>
    if pt ≤ 0 then none
    else
      let mean := pt
      let sd := pt * (3 / 10)
      let vr := sd * sd / (mean * mean)
      let sigma2 := Real.log (1 + vr)
      let sigma := Real.sqrt sigma2
      let mu := Real.log mean - sigma2 / 2
      some (Real.exp (mu + sigma * z))

/-- Randomness consumed by one iteration of the Monte Carlo loop: the uniform
draws of `sampleFleet` and `sampleTrip`, and the two uniforms feeding
`randn` inside `sampleSensor`. -/
structure Draws where
  uShare : ℝ
  uUtil : ℝ
  uTpc : ℝ
  u1 : ℝ
  u2 : ℝ

/-- Result record of `runMonteCarlo` (src/script.js:272-302). -/
structure MCResults where
  fleetSamples : List ℝ
  tripSamples : List (JsNum ℝ)
  sensorSamples : List (JsNum ℝ)
  blendedSamples : List (JsNum ℝ)
  fleetStats : SummaryStats ℝ
  tripStats : SummaryStats ℝ
  sensorStats : SummaryStats ℝ
  blendedStats : SummaryStats ℝ

/-- Embedding of `runMonteCarlo` (src/script.js:272-302): `for (let i = 0; i <
p.samples; i++)` executes `⌈samples⌉` iterations for positive float `samples`
(and none otherwise); iteration `i` consumes the draw record `draws i` and the
fixed `sensorPoint` (`lastSensorCitywideEstimate`). -/
noncomputable def runMonteCarlo (p : Params ℝ) (sensorPoint : Option ℝ)
    (draws : ℕ → Draws) : MCResults :=
  let n := (⌈p.samples⌉).toNat
  let fleet := (List.range n).map fun i => sampleFleet p (draws i).uShare (draws i).uUtil
  let trip := (List.range n).map fun i => sampleTrip p (draws i).uTpc
  let sensor := (List.range n).map fun i =>
    sampleSensor sensorPoint (randn (draws i).u1 (draws i).u2)
  let blend := (List.range n).map fun i =>
    blendSamples (some (sampleFleet p (draws i).uShare (draws i).uUtil))
      (sampleTrip p (draws i).uTpc)
      (sampleSensor sensorPoint (randn (draws i).u1 (draws i).u2))
      p.sensorWeight
  { fleetSamples := fleet
    tripSamples := trip
    sensorSamples := sensor
    blendedSamples := blend
    fleetStats := summarize (fleet.map some)
    tripStats := summarize trip
    sensorStats := summarize sensor
    blendedStats := summarize blend }

/-- Embedding of the `handleFormSubmit` happy path (src/script.js:208-229):
`readInputs` runs first and a thrown validation error aborts before
`runMonteCarlo` is ever entered. -/
noncomputable def runSimulation (r : RawInputs ℝ) (pt : Option ℝ) (ds : ℕ → Draws) :
    Except String MCResults :=
  (readInputs r).map fun p => runMonteCarlo p pt ds

/-- C1: blendSamples returns the unweighted fleet/trip average when the sensor
sample is non-finite or the sensor weight is 0, and otherwise the convex
combination `rest·f + rest·t + w·s` with `rest = (1 - w)/2`; for any weight
`w ∈ (0, 1]` the three coefficients sum to 1. -/
theorem blendSamples_spec (f t s w : ℚ) :
    blendSamples (some f) (some t) none w = some (1 / 2 * f + 1 / 2 * t) ∧
    blendSamples (some f) (some t) (some s) 0 = some (1 / 2 * f + 1 / 2 * t) ∧
    (w ≠ 0 → blendSamples (some f) (some t) (some s) w
      = some ((1 - w) / 2 * f + (1 - w) / 2 * t + w * s)) ∧
    (0 < w → w ≤ 1 → (1 - w) / 2 + (1 - w) / 2 + w = 1) := by
  refine ⟨?_, ?_, fun hw => ?_, fun _ _ => by ring⟩
  · simp [blendSamples, jAdd, jMul]
  · simp [blendSamples, jAdd, jMul]
  · simp [blendSamples, jAdd, jMul, hw]

/-- Witness for C1 at `f = 1`, `t = 2`, `s = 3`, `w = 1/2`. -/
theorem blendSamples_spec_witness :
    blendSamples (K := ℚ) (some 1) (some 2) (some 3) (1 / 2)
      = some ((1 - 1 / 2) / 2 * 1 + (1 - 1 / 2) / 2 * 2 + 1 / 2 * 3) :=
  (blendSamples_spec 1 2 3 (1 / 2)).2.2.1 (by norm_num)

/-- C10: with sensor weight exactly 1 and a finite sensor sample, the blend is
exactly the sensor sample (fleet and trip coefficients are exactly 0). -/
theorem blendSamples_weight_one (f t s : ℚ) :
    blendSamples (some f) (some t) (some s) 1 = some s := by
  rw [blendSamples, if_neg (by simp)]
  simp only [jAdd, jMul, Option.some.injEq]
  ring

/-- C6: with non-positive tripsPerDay the trip sampler returns exactly 0 for
every draw and every tpc range; otherwise it returns tripsPerDay divided by
the uniform draw from [tpcMin, tpcMax), which is positive (hence nonzero)
whenever the validated constraints 0 < tpcMin ≤ tpcMax hold. -/
theorem sampleTrip_spec (p : Params ℚ) (u : ℚ) :
    (p.tripsPerDay ≤ 0 → sampleTrip p u = some 0) ∧
    (0 < p.tripsPerDay → rand p.tpcMin p.tpcMax u ≠ 0 →
      sampleTrip p u = some (p.tripsPerDay / rand p.tpcMin p.tpcMax u)) ∧
    (0 < p.tpcMin → p.tpcMin ≤ p.tpcMax → 0 ≤ u → 0 < rand p.tpcMin p.tpcMax u) := by
  refine ⟨fun h => by simp [sampleTrip, h], fun h hr => ?_, fun h0 hle hu => ?_⟩
  · rw [sampleTrip, if_neg (not_le.mpr h)]
    simp [jDiv, hr]
  · have hm : 0 ≤ u * (p.tpcMax - p.tpcMin) := mul_nonneg hu (sub_nonneg.mpr hle)
    unfold rand
    linarith

/-- Witness for C6 at tripsPerDay = 0, tpcMin = 10, tpcMax = 12, u = 0. -/
theorem sampleTrip_spec_witness :
    sampleTrip (K := ℚ) ⟨1500, 1 / 10, 1 / 5, 2 / 5, 3 / 5, 0, 10, 12, 2000, 1 / 2⟩ 0
      = some 0 :=
  (sampleTrip_spec ⟨1500, 1 / 10, 1 / 5, 2 / 5, 3 / 5, 0, 10, 12, 2000, 1 / 2⟩ 0).1 le_rfl

/-- C4: the sensor sampler returns the non-finite sentinel exactly when the
point estimate is missing or not a positive real, and a finite positive value
for every finite positive point and every normal draw `z`. -/
theorem sampleSensor_spec (z : ℝ) :
    sampleSensor none z = none ∧
    (∀ v : ℝ, v ≤ 0 → sampleSensor (some v) z = none) ∧
    (∀ v : ℝ, 0 < v → ∃ y : ℝ, sampleSensor (some v) z = some y ∧ 0 < y) := by
  refine ⟨rfl, fun v hv => by simp [sampleSensor, hv], fun v hv => ?_⟩
  rw [sampleSensor, if_neg (not_le.mpr hv)]
  exact ⟨_, rfl, Real.exp_pos _⟩

/-- Witness for C4 at point 1000 and draw z = 0. -/
theorem sampleSensor_spec_witness :
    ∃ y : ℝ, sampleSensor (some 1000) 0 = some y ∧ 0 < y :=
  (sampleSensor_spec 0).2.2 1000 (by norm_num)

/-- C3: percentile is the linear-interpolation estimator: with idx = p·(m−1),
lo = floor idx, hi = ceil idx, it returns a[lo] when lo = hi and
a[lo]·(hi−idx) + a[hi]·(idx−lo) otherwise; in particular
percentile([10], 0.05) = 10, percentile([1,2,3,4,5], 0.5) = 3 and
percentile([1,2], 0.25) = 1.25. -/
theorem percentile_spec (a : List ℚ) (q : ℚ) :
    (⌊q * ((a.length : ℚ) - 1)⌋ = ⌈q * ((a.length : ℚ) - 1)⌉ →
      percentile a q = a.getD (⌊q * ((a.length : ℚ) - 1)⌋).toNat 0) ∧
    (⌊q * ((a.length : ℚ) - 1)⌋ ≠ ⌈q * ((a.length : ℚ) - 1)⌉ →
      percentile a q =
        a.getD (⌊q * ((a.length : ℚ) - 1)⌋).toNat 0
            * ((⌈q * ((a.length : ℚ) - 1)⌉ : ℚ) - q * ((a.length : ℚ) - 1))
          + a.getD (⌈q * ((a.length : ℚ) - 1)⌉).toNat 0
            * (q * ((a.length : ℚ) - 1) - (⌊q * ((a.length : ℚ) - 1)⌋ : ℚ))) ∧
    percentile [(10 : ℚ)] (5 / 100) = 10 ∧
    percentile [(1 : ℚ), 2, 3, 4, 5] (1 / 2) = 3 ∧
    percentile [(1 : ℚ), 2] (25 / 100) = 5 / 4 := by
  refine ⟨fun h => by rw [percentile, if_pos h], fun h => by rw [percentile, if_neg h],
    ?_, ?_, ?_⟩
  · norm_num [percentile]
  · norm_num [percentile]
    rfl
  · norm_num [percentile]
    rw [show (⌈(1 / 4 : ℚ)⌉ : ℤ) = 1 from by rw [Int.ceil_eq_iff]; norm_num]
    norm_num

/-- Witness for C3: the lo = hi branch evaluated on the single-element array. -/
theorem percentile_spec_witness :
    percentile [(10 : ℚ)] (5 / 100)
      = [(10 : ℚ)].getD (⌊(5 / 100 : ℚ) * (([(10 : ℚ)].length : ℚ) - 1)⌋).toNat 0 :=
  (percentile_spec [(10 : ℚ)] (5 / 100)).1 (by norm_num)

/-- C5: summarize filters its input to finite values; with no finite values it
returns the all-undefined record (never zero), and on the constant sequence
[7, 7, 7] it returns mean = p5 = p95 = 7. -/
theorem summarize_spec (arr : List (JsNum ℚ)) (h : arr.filterMap id = []) :
    summarize (K := ℚ) [] = ⟨none, none, none⟩ ∧
    summarize (K := ℚ) [some 7, some 7, some 7] = ⟨some 7, some 7, some 7⟩ ∧
    summarize arr = ⟨none, none, none⟩ := by
  refine ⟨rfl, ?_, ?_⟩
  · have hp5 : percentile [(7 : ℚ), 7, 7] (1 / 20) = 7 := by
      norm_num [percentile]
      rw [show (⌈(1 / 10 : ℚ)⌉ : ℤ) = 1 from by rw [Int.ceil_eq_iff]; norm_num]
      norm_num
    have hp95 : percentile [(7 : ℚ), 7, 7] (19 / 20) = 7 := by
      norm_num [percentile]
      rw [show (⌈(19 / 10 : ℚ)⌉ : ℤ) = 2 from by rw [Int.ceil_eq_iff]; norm_num]
      intro h2
      rw [show Int.toNat 2 = 2 from rfl]
      simp
      norm_num
    simp only [summarize, summarizeFrame, List.filterMap_cons, id_eq, List.filterMap_nil,
      List.isEmpty_cons, List.insertionSort, List.orderedInsert]
    norm_num [hp5, hp95]
  · simp [summarize, summarizeFrame, h]

/-- Witness for C5: an input whose only entry is non-finite filters to the
empty list and yields the all-undefined record. -/
theorem summarize_spec_witness :
    summarize (K := ℚ) [none] = ⟨none, none, none⟩ :=
  (summarize_spec [none] (by simp)).2.2

/-- C2 (amended): validation rejects fleetSize = 0, sfShareMin > sfShareMax,
samples = 500 and sensorWeight = 1.5, and a validation error aborts the run
before any sampling; however tripsPerDay is not validated at all, so a
negative tripsPerDay with all other fields in range is accepted and a full
run proceeds. -/
theorem readInputs_spec (r : RawInputs ℝ) (pt : Option ℝ) (ds : ℕ → Draws) :
    (r.fleetSize = 0 → (readInputs r).isOk = false) ∧
    (r.sfShareMin > r.sfShareMax → (readInputs r).isOk = false) ∧
    (r.samples = 500 → (readInputs r).isOk = false) ∧
    (r.sensorWeight = 1.5 → (readInputs r).isOk = false) ∧
    (∀ m, readInputs r = Except.error m → runSimulation r pt ds = Except.error m) ∧
    (0 < r.fleetSize → 0 ≤ r.sfShareMin → r.sfShareMin ≤ r.sfShareMax → r.sfShareMax ≤ 100 →
      0 ≤ r.utilMin → r.utilMin ≤ r.utilMax → r.utilMax ≤ 100 →
      0 < r.tripsPerCarMin → r.tripsPerCarMin ≤ r.tripsPerCarMax → 1000 ≤ r.samples →
      0 ≤ r.sensorWeight → r.sensorWeight ≤ 1 → (readInputs r).isOk = true) := by
  refine ⟨fun h => ?_, fun h => ?_, fun h => ?_, fun h => ?_, fun m hm => ?_, ?_⟩
  · unfold readInputs
    split_ifs with h1 h2 h3 h4 h5 h6 <;> try rfl
    exact absurd (le_of_eq h) h1
  · unfold readInputs
    split_ifs with h1 h2 h3 h4 h5 h6 <;> try rfl
    exact absurd (Or.inr (Or.inr h)) h2
  · unfold readInputs
    split_ifs with h1 h2 h3 h4 h5 h6 <;> try rfl
    exact absurd (by rw [h]; norm_num : r.samples < 1000) h5
  · unfold readInputs
    split_ifs with h1 h2 h3 h4 h5 h6 <;> try rfl
    exact absurd (Or.inr (by rw [h]; norm_num : r.sensorWeight > 1)) h6
  · rw [runSimulation, hm]
    rfl
  · intro a1 a2 a3 a4 a5 a6 a7 a8 a9 a10 a11 a12
    unfold readInputs
    split_ifs with h1 h2 h3 h4 h5 h6
    · exfalso; linarith
    · exfalso; rcases h2 with h | h | h <;> linarith
    · exfalso; rcases h3 with h | h | h <;> linarith
    · exfalso; rcases h4 with h | h <;> linarith
    · exfalso; linarith
    · exfalso; rcases h6 with h | h <;> linarith
    · rfl

/-- Witness for C2: fleetSize = 0 is rejected. -/
theorem readInputs_spec_witness :
    (readInputs (K := ℝ) ⟨0, 10, 20, 40, 60, 5, 10, 12, 2000, 1 / 2⟩).isOk = false :=
  (readInputs_spec ⟨0, 10, 20, 40, 60, 5, 10, 12, 2000, 1 / 2⟩ none
    (fun _ => ⟨0, 0, 0, 1 / 2, 1 / 2⟩)).1 rfl

/-- Counterexample for C2 as stated: tripsPerDay = −5 with every other field
inside its constraint passes validation, so no ValidationError is raised for
a negative tripsPerDay. -/
theorem readInputs_accepts_negative_tripsPerDay :
    readInputs (K := ℝ) ⟨1500, 10, 20, 40, 60, -5, 10, 12, 2000, 1 / 2⟩
      = Except.ok ⟨1500, 10 / 100, 20 / 100, 40 / 100, 60 / 100, -5, 10, 12, 2000, 1 / 2⟩ := by
  unfold readInputs
  norm_num

/-- C7: one run of the Monte Carlo engine with samples = k produces four
sequences (fleet, trip, sensor, blended) each of length exactly k. -/
theorem runMonteCarlo_lengths (p : Params ℝ) (pt : Option ℝ) (ds : ℕ → Draws) (k : ℕ)
    (hk : p.samples = (k : ℝ)) :
    (runMonteCarlo p pt ds).fleetSamples.length = k ∧
    (runMonteCarlo p pt ds).tripSamples.length = k ∧
    (runMonteCarlo p pt ds).sensorSamples.length = k ∧
    (runMonteCarlo p pt ds).blendedSamples.length = k := by
  have hn : (⌈p.samples⌉).toNat = k := by
    rw [hk, Int.ceil_natCast, Int.toNat_natCast]
  refine ⟨?_, ?_, ?_, ?_⟩ <;> simp [runMonteCarlo, hn]

/-- Witness for C7 at samples = 1000. -/
theorem runMonteCarlo_lengths_witness :
    (runMonteCarlo ⟨1500, 1 / 10, 1 / 5, 2 / 5, 3 / 5, 0, 10, 12, 1000, 1 / 2⟩ none
      (fun _ => ⟨0, 0, 0, 1 / 2, 1 / 2⟩)).fleetSamples.length = 1000 :=
  (runMonteCarlo_lengths ⟨1500, 1 / 10, 1 / 5, 2 / 5, 3 / 5, 0, 10, 12, 1000, 1 / 2⟩ none
    (fun _ => ⟨0, 0, 0, 1 / 2, 1 / 2⟩) 1000 (by norm_num)).1

/-- With finite fleet and trip samples the blend is finite whatever the sensor
sample: the non-finite sentinel only selects the fallback average, it never
propagates into the blended value. -/
lemma blendSamples_isSome {K : Type} [LinearOrderedField K] (f t : K) (s : JsNum K) (w : K) :
    (blendSamples (some f) (some t) s w).isSome = true := by
  unfold blendSamples
  split_ifs with h
  · rfl
  · push_neg at h
    obtain ⟨sv, rfl⟩ := Option.ne_none_iff_exists'.mp h.1
    rfl

/-- Under the validated constraint 0 < tpcMin ≤ tpcMax the trips-per-car draw
is positive, so the trip sample is finite. -/
lemma sampleTrip_isSome {K : Type} [LinearOrderedField K] (p : Params K) (u : K)
    (h0 : 0 < p.tpcMin) (hle : p.tpcMin ≤ p.tpcMax) (hu : 0 ≤ u) :
    ∃ tv, sampleTrip p u = some tv := by
  unfold sampleTrip
  split_ifs with h
  · exact ⟨0, rfl⟩
  · have hr : 0 < rand p.tpcMin p.tpcMax u := by
      have hm : 0 ≤ u * (p.tpcMax - p.tpcMin) := mul_nonneg hu (sub_nonneg.mpr hle)
      unfold rand
      linarith
    exact ⟨p.tripsPerDay / rand p.tpcMin p.tpcMax u, by simp [jDiv, hr.ne']⟩

/-- C8: under valid parameters (0 < tpcMin ≤ tpcMax, uniform draws in [0,1))
and any sensor point, every element of the blended sequence of a run is a
finite real. -/
theorem runMonteCarlo_blended_finite (p : Params ℝ) (pt : Option ℝ) (ds : ℕ → Draws)
    (h0 : 0 < p.tpcMin) (hle : p.tpcMin ≤ p.tpcMax) (hu : ∀ i, 0 ≤ (ds i).uTpc) :
    ((runMonteCarlo p pt ds).blendedSamples.all Option.isSome) = true := by
  rw [List.all_eq_true]
  intro b hb
  simp only [runMonteCarlo, List.mem_map, List.mem_range] at hb
  obtain ⟨i, hi, rfl⟩ := hb
  obtain ⟨tv, htv⟩ := sampleTrip_isSome p (ds i).uTpc h0 hle (hu i)
  rw [htv]
  exact blendSamples_isSome _ _ _ _

/-- Witness for C8 with no sensor point and 1000 samples. -/
theorem runMonteCarlo_blended_finite_witness :
    ((runMonteCarlo ⟨1500, 1 / 10, 1 / 5, 2 / 5, 3 / 5, 0, 10, 12, 1000, 1 / 2⟩ none
      (fun _ => ⟨0, 0, 0, 1 / 2, 1 / 2⟩)).blendedSamples.all Option.isSome) = true :=
  runMonteCarlo_blended_finite ⟨1500, 1 / 10, 1 / 5, 2 / 5, 3 / 5, 0, 10, 12, 1000, 1 / 2⟩
    none (fun _ => ⟨0, 0, 0, 1 / 2, 1 / 2⟩) (by norm_num) (by norm_num) (fun _ => le_refl 0)

/-- C9: summarize never modifies its input array: the array contents after the
call (second component of the state-passing embedding) equal the input, and
the returned record is the pure summarize value. -/
theorem summarizeFrame_frame (arr : List (JsNum ℚ)) :
    (summarizeFrame arr).2 = arr ∧ (summarizeFrame arr).1 = summarize arr := by
  refine ⟨?_, rfl⟩
  cases hc : (List.filterMap id arr).isEmpty <;> simp [summarizeFrame, hc]
